import Mathlib

/-!
Verification of the primetrade signed trading client.

This file is a shallow embedding, in Lean 4, of the core of the
repository: the request signer (HMAC-SHA256 over an insertion-ordered
query string, `bot/client.py`), the signed-request construction and the
transport error classification of `BinanceClient._make_request`, the
parameter map built by `BinanceClient.place_order`, the field validators
of `bot/validators.py` (including a faithful model of Python
`decimal.Decimal` string parsing and of its NaN comparison semantics),
and the `OrderManager` orchestration of `bot/orders.py`.

Python dicts are modelled as insertion-ordered association lists;
Python floats/Decimals as exact rationals extended with infinities and
NaN (binary rounding of `float()` is abstracted to the identity);
exceptions as explicit outcome constructors.  The network is an oracle
parameter: manager-level functions take the outcome of the underlying
HTTP exchange as an argument and also report which parameter maps were
handed to the transport client.
-/

namespace Primetrade

/-! ## SHA-256 (model of `hashlib.sha256`)

Words are `Nat`s kept below `2^32`; every arithmetic step reduces
mod `2^32` exactly where the algorithm does. -/

/-- Word modulus `2^32`. -/
def w32 : Nat := 4294967296

/-- Bitwise complement within 32 bits (inputs are kept below `2^32`). -/
def not32 (x : Nat) : Nat := 4294967295 - x

/-- Right rotation of a 32-bit word by `n` places. -/
def rotr (n x : Nat) : Nat := (x / 2 ^ n + x % 2 ^ n * 2 ^ (32 - n)) % w32

/-- Logical right shift. -/
def shr (n x : Nat) : Nat := x / 2 ^ n

/-- SHA-256 choice function. -/
def ch (x y z : Nat) : Nat := (x &&& y) ^^^ (not32 x &&& z)

/-- SHA-256 majority function. -/
def maj (x y z : Nat) : Nat := (x &&& y) ^^^ (x &&& z) ^^^ (y &&& z)

/-- Big sigma 0. -/
def bsig0 (x : Nat) : Nat := rotr 2 x ^^^ rotr 13 x ^^^ rotr 22 x

/-- Big sigma 1. -/
def bsig1 (x : Nat) : Nat := rotr 6 x ^^^ rotr 11 x ^^^ rotr 25 x

/-- Small sigma 0. -/
def ssig0 (x : Nat) : Nat := rotr 7 x ^^^ rotr 18 x ^^^ shr 3 x

/-- Small sigma 1. -/
def ssig1 (x : Nat) : Nat := rotr 17 x ^^^ rotr 19 x ^^^ shr 10 x

/-- SHA-256 round constants. -/
def shaK : List Nat :=
  [1116352408, 1899447441, 3049323471, 3921009573, 961987163,
   1508970993, 2453635748, 2870763221, 3624381080, 310598401,
   607225278, 1426881987, 1925078388, 2162078206, 2614888103,
   3248222580, 3835390401, 4022224774, 264347078, 604807628,
   770255983, 1249150122, 1555081692, 1996064986, 2554220882,
   2821834349, 2952996808, 3210313671, 3336571891, 3584528711,
   113926993, 338241895, 666307205, 773529912, 1294757372,
   1396182291, 1695183700, 1986661051, 2177026350, 2456956037,
   2730485921, 2820302411, 3259730800, 3345764771, 3516065817,
   3600352804, 4094571909, 275423344, 430227734, 506948616,
   659060556, 883997877, 958139571, 1322822218, 1537002063,
   1747873779, 1955562222, 2024104815, 2227730452, 2361852424,
   2428436474, 2756734187, 3204031479, 3329325298]

/-- The eight working registers of the compression function. -/
structure Hash8 where
  a : Nat
  b : Nat
  c : Nat
  d : Nat
  e : Nat
  f : Nat
  g : Nat
  h : Nat
  deriving Repr, DecidableEq

/-- SHA-256 initial hash value. -/
def shaH0 : Hash8 :=
  ⟨1779033703, 3144134277, 1013904242, 2773480762,
   1359893119, 2600822924, 528734635, 1541459225⟩

/-- One round of the SHA-256 compression function; `wk` is the pair
(schedule word, round constant). -/
def compressStep (st : Hash8) (wk : Nat × Nat) : Hash8 :=
  let t1 := (st.h + bsig1 st.e + ch st.e st.f st.g + wk.2 + wk.1) % w32
  let t2 := (bsig0 st.a + maj st.a st.b st.c) % w32
  ⟨(t1 + t2) % w32, st.a, st.b, st.c, (st.d + t1) % w32, st.e, st.f, st.g⟩

/-- Componentwise addition mod `2^32` of two register files. -/
def add8 (x y : Hash8) : Hash8 :=
  ⟨(x.a + y.a) % w32, (x.b + y.b) % w32, (x.c + y.c) % w32, (x.d + y.d) % w32,
   (x.e + y.e) % w32, (x.f + y.f) % w32, (x.g + y.g) % w32, (x.h + y.h) % w32⟩

/-- Group a byte list into big-endian 32-bit words. -/
def bytesToWords : List Nat → List Nat
  | b0 :: b1 :: b2 :: b3 :: rest =>
      (b0 * 16777216 + b1 * 65536 + b2 * 256 + b3) :: bytesToWords rest
  | _ => []

/-- Append the next message-schedule word. -/
def scheduleStep (ws : List Nat) : List Nat :=
  let n := ws.length
  ws ++ [(ssig1 (ws.getD (n - 2) 0) + ws.getD (n - 7) 0
          + ssig0 (ws.getD (n - 15) 0) + ws.getD (n - 16) 0) % w32]

/-- The 64-word message schedule of one block. -/
def schedule (block : List Nat) : List Nat :=
  (List.range 48).foldl (fun ws _ => scheduleStep ws) (bytesToWords block)

/-- Process one 64-byte block. -/
def processBlock (H : Hash8) (block : List Nat) : Hash8 :=
  add8 H (((schedule block).zip shaK).foldl compressStep H)

/-- Big-endian bytes of a 32-bit word. -/
def toBE32 (x : Nat) : List Nat :=
  [x / 16777216 % 256, x / 65536 % 256, x / 256 % 256, x % 256]

/-- Big-endian bytes of a 64-bit length field. -/
def toBE64 (x : Nat) : List Nat :=
  [x / 2 ^ 56 % 256, x / 2 ^ 48 % 256, x / 2 ^ 40 % 256, x / 2 ^ 32 % 256,
   x / 16777216 % 256, x / 65536 % 256, x / 256 % 256, x % 256]

/-- SHA-256 padding: a 0x80 byte, zeros, then the bit length, reaching a
multiple of 64 bytes. -/
def padMessage (msg : List Nat) : List Nat :=
  let l := msg.length
  let k := (64 - (l + 9) % 64) % 64
  msg ++ [128] ++ List.replicate k 0 ++ toBE64 (8 * l)

/-- Split a byte list into 64-byte blocks. -/
def toBlocks (l : List Nat) : List (List Nat) :=
  if h : l = [] then []
  else l.take 64 :: toBlocks (l.drop 64)
termination_by l.length
decreasing_by
  simp only [List.length_drop]
  have : 0 < l.length := List.length_pos.mpr h
  omega

/-- Full SHA-256: bytes in, 32 digest bytes out. -/
def sha256 (msg : List Nat) : List Nat :=
  let H := (toBlocks (padMessage msg)).foldl processBlock shaH0
  toBE32 H.a ++ toBE32 H.b ++ toBE32 H.c ++ toBE32 H.d
    ++ toBE32 H.e ++ toBE32 H.f ++ toBE32 H.g ++ toBE32 H.h

/-! ## HMAC (model of `hmac.new(key, msg, hashlib.sha256)`) -/

/-- HMAC-SHA256 over byte lists (block size 64). -/
def hmacSha256 (key msg : List Nat) : List Nat :=
  let k0 := if 64 < key.length then sha256 key else key
  let kp := k0 ++ List.replicate (64 - k0.length) 0
  sha256 ((kp.map fun b => b ^^^ 0x5c) ++ sha256 ((kp.map fun b => b ^^^ 0x36) ++ msg))

/-! ## Hex rendering and byte-level string encoding -/

/-- Lowercase hexadecimal alphabet, as used by Python `hexdigest`. -/
def hexTable : List Char := "0123456789abcdef".toList

/-- The lowercase hex digit of a nibble. -/
def hexChar (n : Nat) : Char := hexTable.getD (n % 16) '0'

/-- Model of `bytes.hex()` / `hexdigest`: two lowercase hex digits per byte. -/
def hexDigest (bs : List Nat) : String :=
  String.mk ((bs.map fun b => [hexChar (b / 16), hexChar (b % 16)]).flatten)

/-- Uppercase hexadecimal alphabet (percent-encoding uses uppercase). -/
def hexTableUpper : List Char := "0123456789ABCDEF".toList

/-- The uppercase hex digit of a nibble. -/
def hexUpperChar (n : Nat) : Char := hexTableUpper.getD (n % 16) '0'

/-- UTF-8 encoding of one character (model of `str.encode` per char). -/
def utf8Bytes (c : Char) : List Nat :=
  let n := c.toNat
  if n < 128 then [n]
  else if n < 2048 then [192 + n / 64, 128 + n % 64]
  else if n < 65536 then [224 + n / 4096, 128 + n / 64 % 64, 128 + n % 64]
  else [240 + n / 262144, 128 + n / 4096 % 64, 128 + n / 64 % 64, 128 + n % 64]

/-- UTF-8 bytes of a string (model of `str.encode` with utf-8). -/
def strBytes (s : String) : List Nat := (s.toList.map utf8Bytes).flatten

/-! ## Query-string encoding (model of `urllib.parse.urlencode`)

`urlencode` quotes keys and values with `quote_plus` (safe set: ASCII
alphanumerics plus `_ . - ~`; space becomes `+`; every other character
is percent-encoded byte by byte, uppercase hex) and joins the pairs
with `=` and `&` in the insertion order of the map. -/

/-- Percent-encode a single byte, uppercase, as in `urllib.parse.quote`. -/
def percentEncodeByte (b : Nat) : List Char :=
  ['%', hexUpperChar (b / 16), hexUpperChar (b % 16)]

/-- Translation of one character under `quote_plus`. -/
def quotePlusChar (c : Char) : List Char :=
  if c.isAlphanum || c == '_' || c == '.' || c == '-' || c == '~' then [c]
  else if c == ' ' then ['+']
  else ((utf8Bytes c).map percentEncodeByte).flatten

/-- Model of `urllib.parse.quote_plus`. -/
def quotePlus (s : String) : String :=
  String.mk (s.toList.map quotePlusChar).flatten

/-- Model of `urllib.parse.urlencode` on an insertion-ordered map. -/
def urlencode (params : List (String × String)) : String :=
  String.intercalate "&" (params.map fun kv => quotePlus kv.1 ++ "=" ++ quotePlus kv.2)

/-! ## The signer (`BinanceClient._generate_signature`) -/

/-- Model of `BinanceClient._generate_signature`: HMAC-SHA256 of the
insertion-ordered query-string encoding of `params`, keyed with the
UTF-8 bytes of the secret, rendered as lowercase hex. -/
def generate_signature (api_secret : String) (params : List (String × String)) : String :=
  hexDigest (hmacSha256 (strBytes api_secret) (strBytes (urlencode params)))

/-! ## Python dict semantics

A Python dict is insertion ordered; assigning to an existing key
overwrites the value in place, assigning to a fresh key appends. -/

/-- Model of `d[k] = v` on an insertion-ordered dict. -/
def dictSet (d : List (String × String)) (k v : String) : List (String × String) :=
  if d.any fun kv => kv.1 == k then d.map fun kv => if kv.1 == k then (k, v) else kv
  else d ++ [(k, v)]

/-- Keys of a dict, in insertion order. -/
def dictKeys {α : Type} (d : List (String × α)) : List String := d.map Prod.fst

/-! ## Signed request construction (`BinanceClient._make_request`, signed branch)

In the source the signed branch runs, on the parameter dict `params`:
`params['timestamp'] = self._get_timestamp()` then
`params['signature'] = self._generate_signature(params)`.
`_get_timestamp` (the current epoch milliseconds) is an external input
and is passed in as `ts`; dict values are taken at their string images
(as `urlencode` would render them). -/

/-- Model of the `if signed:` branch of `BinanceClient._make_request`. -/
def makeSignedParams (api_secret : String) (ts : Nat) (params : List (String × String)) :
    List (String × String) :=
  let p1 := dictSet params "timestamp" (toString ts)
  dictSet p1 "signature" (generate_signature api_secret p1)

/-! ## JSON values and the transport error type -/

/-- JSON scalar values, as delivered by `response.json()`. -/
inductive JVal where
  | jnum (i : Int)
  | jstr (s : String)
  | jbool (b : Bool)
  | jnull
  deriving Repr, DecidableEq

/-- A JSON object: an insertion-ordered map of scalars. -/
abbrev JsonObj : Type := List (String × JVal)

/-- Model of `BinanceAPIError(status_code, error_code, message)`.  The
error code and message come from `dict.get` on the response body, so
they are JSON values (`'TIMEOUT'`-style codes are `jstr`s). -/
structure BinanceAPIError where
  status_code : Int
  error_code : JVal
  message : JVal
  deriving Repr, DecidableEq

/-- Outcome of the underlying HTTP exchange, as seen by
`_make_request`: either a response arrived (with status code, and a
parsed JSON body unless the body was malformed), or the request failed
at transport level (`requests.exceptions.Timeout`,
`requests.exceptions.ConnectionError`, or any other
`requests.exceptions.RequestException`). -/
inductive HttpOutcome where
  | response (status : Int) (body : Option JsonObj)
  | timeout
  | connectionError (msg : String)
  | requestError (msg : String)
  deriving Repr, DecidableEq

/-- Model of the response-handling and error-classification part of
`BinanceClient._make_request`: JSON parse failure becomes
`INVALID_JSON`, a non-200 status raises with the body code and message
(defaults `'UNKNOWN'` / `'Unknown error'`), transport failures map to
`TIMEOUT` / `CONNECTION_ERROR` / `REQUEST_ERROR` with status 0. -/
def make_request (http : HttpOutcome) : Except BinanceAPIError JsonObj :=
  match http with
  | .response status body =>
      match body with
      | none => .error ⟨status, .jstr "INVALID_JSON", .jstr "Invalid JSON response from server"⟩
      | some data =>
          if status ≠ 200 then
            .error ⟨status, (data.lookup "code").getD (.jstr "UNKNOWN"),
                    (data.lookup "msg").getD (.jstr "Unknown error")⟩
          else .ok data
  | .timeout => .error ⟨0, .jstr "TIMEOUT", .jstr "Request timed out"⟩
  | .connectionError m => .error ⟨0, .jstr "CONNECTION_ERROR", .jstr m⟩
  | .requestError m => .error ⟨0, .jstr "REQUEST_ERROR", .jstr m⟩

/-! ## Python `decimal.Decimal` string parsing

The validators call `Decimal(str(x))`.  A decimal numeric string is
(after stripping surrounding whitespace and removing underscores,
case-insensitively): `[sign] (digits [. digits] | . digits)
[(e|E) [sign] digits]`, or `[sign] (Inf | Infinity)`, or
`[sign] (NaN | sNaN) [digits]`.  Values are modelled as exact
rationals extended with the two infinities and NaN; the later
`float()` conversion is abstracted to the identity on this type. -/

/-- Strip leading and trailing whitespace from a character list. -/
def pyStripChars (cs : List Char) : List Char :=
  ((cs.dropWhile Char.isWhitespace).reverse.dropWhile Char.isWhitespace).reverse

/-- Python `s.strip()` (ASCII-whitespace model). -/
def pyStrip (s : String) : String := String.mk (pyStripChars s.toList)

/-- Python `s.upper()` (ASCII model). -/
def pyUpper (s : String) : String := String.mk (s.toList.map Char.toUpper)

/-- Python `s.endswith(suffix)`. -/
def pyEndsWith (s suffix : String) : Bool := suffix.toList.isSuffixOf s.toList

/-- A parsed Python `Decimal` (also standing in for the `float` it is
converted to). -/
inductive PyDecimal where
  | fin (q : ℚ)
  | inf
  | neginf
  | nan
  deriving Repr, DecidableEq

/-- Digits of a digit-character list as a natural number. -/
def natOfDigits (cs : List Char) : Nat :=
  cs.foldl (fun a c => a * 10 + (c.toNat - 48)) 0

/-- Parse the coefficient `digits [. digits] | . digits`, returning the
digit string's value and the number of fraction digits. -/
def parseCoefficient (cs : List Char) : Option (Nat × Nat) :=
  let ip := cs.takeWhile Char.isDigit
  let rest := cs.dropWhile Char.isDigit
  match rest with
  | [] => if ip.isEmpty then none else some (natOfDigits ip, 0)
  | '.' :: fp =>
      if fp.all Char.isDigit ∧ ¬(ip.isEmpty ∧ fp.isEmpty) then
        some (natOfDigits (ip ++ fp), fp.length)
      else none
  | _ => none

/-- Parse the exponent digits after the indicator: `[sign] digits`. -/
def parseExponent (cs : List Char) : Option Int :=
  match cs with
  | '+' :: ds => if ds.isEmpty || ¬ds.all Char.isDigit then none else some (natOfDigits ds : Int)
  | '-' :: ds => if ds.isEmpty || ¬ds.all Char.isDigit then none else some (-(natOfDigits ds : Int))
  | ds => if ds.isEmpty || ¬ds.all Char.isDigit then none else some (natOfDigits ds : Int)

/-- Value of a sign, coefficient and exponent: `±m * 10^(e - scale)`,
written with `mkRat` so that it evaluates by normalization alone. -/
def ratOfParts (neg : Bool) (m : Nat) (scale : Nat) (e : Int) : ℚ :=
  let sm : Int := if neg then -(m : Int) else (m : Int)
  if (scale : Int) ≤ e then mkRat (sm * (10 : Int) ^ (e - (scale : Int)).toNat) 1
  else mkRat sm (10 ^ ((scale : Int) - e).toNat)

/-- Parse an unsigned numeric value (coefficient with optional
exponent part). -/
def parseNumericValue (cs : List Char) (neg : Bool) : Option PyDecimal :=
  let mant := cs.takeWhile fun c => c ≠ 'e'
  let rest := cs.dropWhile fun c => c ≠ 'e'
  match parseCoefficient mant with
  | none => none
  | some (m, scale) =>
      match rest with
      | [] => some (.fin (ratOfParts neg m scale 0))
      | _ :: es =>
          match parseExponent es with
          | none => none
          | some e => some (.fin (ratOfParts neg m scale e))

/-- Parse an unsigned decimal value: the special names or a numeric
value (input already lowercased). -/
def parseUnsignedDecimal (cs : List Char) (neg : Bool) : Option PyDecimal :=
  if cs = ['i', 'n', 'f'] ∨ cs = ['i', 'n', 'f', 'i', 'n', 'i', 't', 'y'] then
    some (if neg then .neginf else .inf)
  else if cs.take 4 = ['s', 'n', 'a', 'n'] ∧ (cs.drop 4).all Char.isDigit then some .nan
  else if cs.take 3 = ['n', 'a', 'n'] ∧ (cs.drop 3).all Char.isDigit then some .nan
  else parseNumericValue cs neg

/-- Model of `Decimal(s)` on a string: `none` is `InvalidOperation`
raised by the constructor.  Surrounding whitespace is stripped,
underscores are removed, matching is case-insensitive. -/
def parseDecimal (s : String) : Option PyDecimal :=
  let cs := ((pyStripChars s.toList).filter fun c => c ≠ '_').map Char.toLower
  match cs with
  | '+' :: rest => parseUnsignedDecimal rest false
  | '-' :: rest => parseUnsignedDecimal rest true
  | rest => parseUnsignedDecimal rest false

/-! ## Validators (`bot/validators.py`)

String inputs are modelled as `Option String` (`none` is Python
`None`; for `validate_quantity`/`validate_price` the string is the
`str()` image of the caller's value).  Python's `.upper()`/`.strip()`
are modelled on ASCII. -/

/-- The valid side literals (`VALID_SIDES`). -/
def VALID_SIDES : List String := ["BUY", "SELL"]

/-- The valid order-type literals (`VALID_ORDER_TYPES`). -/
def VALID_ORDER_TYPES : List String := ["MARKET", "LIMIT"]

/-- Model of `validate_symbol`: required and non-empty, uppercased and
stripped, must end with `USDT`. -/
def validate_symbol (symbol : Option String) : Except String String :=
  match symbol with
  | none => .error "Symbol is required"
  | some s =>
      if s = "" then .error "Symbol is required"
      else
        let sym := pyStrip (pyUpper s)
        if ¬pyEndsWith sym "USDT" then
          .error ("Invalid symbol format: " ++ sym ++ ". Must end with USDT")
        else .ok sym

/-- Model of `validate_side`. -/
def validate_side (side : Option String) : Except String String :=
  match side with
  | none => .error "Side is required"
  | some s =>
      if s = "" then .error "Side is required"
      else
        let sd := pyStrip (pyUpper s)
        if ¬VALID_SIDES.contains sd then
          .error ("Invalid side: " ++ sd ++ ". Must be BUY or SELL")
        else .ok sd

/-- Model of `validate_order_type`. -/
def validate_order_type (order_type : Option String) : Except String String :=
  match order_type with
  | none => .error "Order type is required"
  | some s =>
      if s = "" then .error "Order type is required"
      else
        let ot := pyStrip (pyUpper s)
        if ¬VALID_ORDER_TYPES.contains ot then
          .error ("Invalid order type: " ++ ot ++ ". Must be MARKET or LIMIT")
        else .ok ot

/-- Outcome of `validate_quantity`: a returned value, a
`ValidationError` with its message, or an uncaught
`decimal.InvalidOperation`.  The last arises because `qty <= 0` on a
NaN `Decimal` raises `InvalidOperation`, and the `try` block of the
source covers only the `Decimal(...)` construction. -/
inductive NumOutcome where
  | ok (v : PyDecimal)
  | verror (msg : String)
  | invalidOp
  deriving Repr, DecidableEq

/-- Model of `validate_quantity`. -/
def validate_quantity (quantity : Option String) : NumOutcome :=
  match quantity with
  | none => .verror "Quantity is required"
  | some s =>
      match parseDecimal s with
      | none => .verror ("Invalid quantity: " ++ s)
      | some .nan => .invalidOp
      | some .neginf => .verror "Quantity must be greater than 0"
      | some .inf => .ok .inf
      | some (.fin q) =>
          if q ≤ 0 then .verror "Quantity must be greater than 0" else .ok (.fin q)

/-- Outcome of `validate_price`: the validated price (`none` for
non-LIMIT orders, Python `None`), a `ValidationError`, or an uncaught
`decimal.InvalidOperation` (same NaN gap as `validate_quantity`). -/
inductive PriceOutcome where
  | ok (v : Option PyDecimal)
  | verror (msg : String)
  | invalidOp
  deriving Repr, DecidableEq

/-- Model of `validate_price`. -/
def validate_price (price : Option String) (order_type : String) : PriceOutcome :=
  if order_type = "LIMIT" then
    match price with
    | none => .verror "Price is required for LIMIT orders"
    | some s =>
        match parseDecimal s with
        | none => .verror ("Invalid price: " ++ s)
        | some .nan => .invalidOp
        | some .neginf => .verror "Price must be greater than 0"
        | some .inf => .ok (some .inf)
        | some (.fin q) =>
            if q ≤ 0 then .verror "Price must be greater than 0" else .ok (some (.fin q))
  else .ok none

/-- The canonical validated parameter record returned by
`validate_order_params`. -/
structure ValidatedOrder where
  symbol : String
  side : String
  order_type : String
  quantity : PyDecimal
  price : Option PyDecimal
  deriving Repr, DecidableEq

/-- Outcome of `validate_order_params`: the record, a
`ValidationError`, or an exception of another class escaping the
validators (`decimal.InvalidOperation`). -/
inductive VOutcome where
  | vok (v : ValidatedOrder)
  | verr (msg : String)
  | vexc (msg : String)
  deriving Repr, DecidableEq

/-- Model of `validate_order_params`: composes the five validators in
source order (symbol, side, order_type, quantity, then price against
the validated order type), failing fast on the first error. -/
def validate_order_params (symbol side order_type quantity price : Option String) : VOutcome :=
  match validate_symbol symbol with
  | .error m => .verr m
  | .ok sym =>
    match validate_side side with
    | .error m => .verr m
    | .ok sd =>
      match validate_order_type order_type with
      | .error m => .verr m
      | .ok ot =>
        match validate_quantity quantity with
        | .verror m => .verr m
        | .invalidOp => .vexc "decimal.InvalidOperation"
        | .ok q =>
          match validate_price price ot with
          | .verror m => .verr m
          | .invalidOp => .vexc "decimal.InvalidOperation"
          | .ok p => .vok ⟨sym, sd, ot, q, p⟩

/-! ## `BinanceClient.place_order` parameter map -/

/-- A Python value placed in the client's parameter dict: the strings
`symbol`, `side`, `type`, `timeInForce`, `reduceOnly`, or the floats
`quantity` and `price`. -/
inductive PVal where
  | str (s : String)
  | num (v : PyDecimal)
  deriving Repr, DecidableEq

/-- Model of Python `x or default` on an optional string (`None` and
the empty string are falsy). -/
def pyOrDefault (v : Option String) (dflt : String) : String :=
  match v with
  | none => dflt
  | some s => if s = "" then dflt else s

/-- Model of the parameter-map construction in
`BinanceClient.place_order`: the base keys symbol, side, type,
quantity in insertion order; for LIMIT orders `price` is required (a
`ValueError` otherwise) and `timeInForce` defaults to `GTC`;
`reduceOnly` is appended as the string `'true'` only when
`reduce_only` is truthy. -/
def client_place_order (symbol side order_type : String) (quantity : PyDecimal)
    (price : Option PyDecimal) (time_in_force : Option String) (reduce_only : Bool) :
    Except String (List (String × PVal)) :=
  let params := [("symbol", PVal.str symbol), ("side", PVal.str side),
                 ("type", PVal.str order_type), ("quantity", PVal.num quantity)]
  if order_type = "LIMIT" then
    match price with
    | none => .error "Price required for LIMIT orders"
    | some p =>
        let params := params ++ [("price", PVal.num p),
                                 ("timeInForce", PVal.str (pyOrDefault time_in_force "GTC"))]
        .ok (params ++ if reduce_only then [("reduceOnly", PVal.str "true")] else [])
  else
    .ok (params ++ if reduce_only then [("reduceOnly", PVal.str "true")] else [])

/-! ## Order Manager (`bot/orders.py`)

The HTTP side of a client call is an oracle argument: it either
returns a parsed body, raises a `BinanceAPIError`, or raises some
other exception class. -/

/-- Outcome of a transport-client call as observed by the manager. -/
inductive ClientCall (α : Type) where
  | ok (a : α)
  | apiErr (e : BinanceAPIError)
  | exc (msg : String)
  deriving Repr, DecidableEq

/-- Bridge from the `_make_request` classification to a manager-level
call outcome. -/
def clientCallOfHttp (http : HttpOutcome) : ClientCall JsonObj :=
  match make_request http with
  | .ok d => .ok d
  | .error e => .apiErr e

/-- A value in a manager result dict: Python `None`, a JSON scalar, a
raw response object, or a list of response objects. -/
inductive RVal where
  | pynone
  | jv (v : JVal)
  | obj (o : JsonObj)
  | arr (a : List JsonObj)
  deriving Repr, DecidableEq

/-- Wrap a `dict.get` result as a stored dict value. -/
def optRV (v : Option JVal) : RVal :=
  match v with
  | none => .pynone
  | some j => .jv j

/-- A manager result dict. -/
abbrev MgrDict : Type := List (String × RVal)

/-- Outcome of a Python call: a returned value, or an exception
escaping uncaught. -/
inductive PyResult (ρ : Type) where
  | ret (r : ρ)
  | raise (msg : String)
  deriving Repr, DecidableEq

/-- Model of `OrderManager._format_order_response`. -/
def format_order_response (response : JsonObj) : MgrDict :=
  [("order_id", optRV (response.lookup "orderId")),
   ("symbol", optRV (response.lookup "symbol")),
   ("side", optRV (response.lookup "side")),
   ("type", optRV (response.lookup "type")),
   ("status", optRV (response.lookup "status")),
   ("quantity", optRV (response.lookup "origQty")),
   ("executed_qty", optRV (response.lookup "executedQty")),
   ("price", optRV (response.lookup "price")),
   ("avg_price", optRV (response.lookup "avgPrice")),
   ("time_in_force", optRV (response.lookup "timeInForce")),
   ("reduce_only", optRV (response.lookup "reduceOnly")),
   ("timestamp", optRV (response.lookup "updateTime")),
   ("raw_response", .obj response)]

/-- Result of a run of `OrderManager.place_order`: the returned dict
(or escaping exception), together with the parameter maps of the
transport-client calls that were issued. -/
structure MgrRun where
  result : PyResult MgrDict
  calls : List (List (String × PVal))
  deriving Repr, DecidableEq

/-- Model of `OrderManager.place_order`.  Validation failure returns a
`VALIDATION_ERROR` dict before any client call; an exception that is
not a `ValidationError` escapes the validation step uncaught.  On
validated input the client's parameter map is built (with only
symbol/side/order_type/quantity/price forwarded — `time_in_force` and
`reduce_only` are left at their defaults `None`/`False`) and the call
is issued; `BinanceAPIError` becomes an `API_ERROR` dict, any other
exception an `UNKNOWN_ERROR` dict. -/
def manager_place_order (symbol side order_type quantity price : Option String)
    (net : List (String × PVal) → ClientCall JsonObj) : MgrRun :=
  match validate_order_params symbol side order_type quantity price with
  | .verr m =>
      ⟨.ret [("success", .jv (.jbool false)), ("error", .jv (.jstr m)),
             ("error_type", .jv (.jstr "VALIDATION_ERROR"))], []⟩
  | .vexc m => ⟨.raise m, []⟩
  | .vok v =>
      match client_place_order v.symbol v.side v.order_type v.quantity v.price none false with
      | .error m =>
          ⟨.ret [("success", .jv (.jbool false)), ("error", .jv (.jstr m)),
                 ("error_type", .jv (.jstr "UNKNOWN_ERROR"))], []⟩
      | .ok params =>
          match net params with
          | .ok response =>
              ⟨.ret (format_order_response response ++ [("success", .jv (.jbool true))]), [params]⟩
          | .apiErr e =>
              ⟨.ret [("success", .jv (.jbool false)), ("error", .jv e.message),
                     ("error_code", .jv e.error_code),
                     ("error_type", .jv (.jstr "API_ERROR"))], [params]⟩
          | .exc m =>
              ⟨.ret [("success", .jv (.jbool false)), ("error", .jv (.jstr m)),
                     ("error_type", .jv (.jstr "UNKNOWN_ERROR"))], [params]⟩

/-- Model of `OrderManager.cancel_order`: only `BinanceAPIError` is
caught, and the failure dict carries no `error_type`; any other
exception escapes. -/
def manager_cancel_order (call : ClientCall JsonObj) : PyResult MgrDict :=
  match call with
  | .ok response => .ret [("success", .jv (.jbool true)), ("response", .obj response)]
  | .apiErr e => .ret [("success", .jv (.jbool false)), ("error", .jv e.message)]
  | .exc m => .raise m

/-- Model of `OrderManager.get_open_orders`: same catch policy as
`cancel_order`. -/
def manager_get_open_orders (call : ClientCall (List JsonObj)) : PyResult MgrDict :=
  match call with
  | .ok orders => .ret [("success", .jv (.jbool true)), ("orders", .arr orders)]
  | .apiErr e => .ret [("success", .jv (.jbool false)), ("error", .jv e.message)]
  | .exc m => .raise m

/-! ## `OrderManager.get_order_summary` -/

/-- Model of `dict.get` with the default `None` (an absent key and a
stored `None` are indistinguishable to the caller). -/
def pyGet (r : MgrDict) (k : String) : Option RVal := r.lookup k

/-- Python truthiness of a JSON scalar. -/
def pyTruthyJ : JVal → Bool
  | .jnum i => i ≠ 0
  | .jstr s => s ≠ ""
  | .jbool b => b
  | .jnull => false

/-- Python truthiness of a `dict.get` result. -/
def pyTruthyR : Option RVal → Bool
  | none => false
  | some .pynone => false
  | some (.jv j) => pyTruthyJ j
  | some (.obj o) => ¬o.isEmpty
  | some (.arr a) => ¬a.isEmpty

/-- Python `str()` of a JSON scalar, as interpolated by an f-string. -/
def pyStrJ : JVal → String
  | .jnum i => toString i
  | .jstr s => s
  | .jbool b => if b then "True" else "False"
  | .jnull => "None"

/-- Rendering of a nested response object inside an f-string
(Python's dict repr; string quoting elided, which no claim observes). -/
def reprJsonObj (o : JsonObj) : String :=
  "\x7b" ++ String.intercalate ", " (o.map fun kv => kv.1 ++ ": " ++ pyStrJ kv.2) ++ "\x7d"

/-- Python `str()` of a `dict.get` result. -/
def pyStrR : Option RVal → String
  | none => "None"
  | some .pynone => "None"
  | some (.jv j) => pyStrJ j
  | some (.obj o) => reprJsonObj o
  | some (.arr a) => "[" ++ String.intercalate ", " (a.map reprJsonObj) ++ "]"

/-- The `"=" * 50` separator. -/
def bar50 : String := String.mk (List.replicate 50 '=')

/-- The unconditional lines of the summary (header through the
Executed line). -/
def summary_base_lines (r : MgrDict) : List String :=
  [bar50,
   "ORDER EXECUTED SUCCESSFULLY",
   bar50,
   "Order ID:     " ++ pyStrR (pyGet r "order_id"),
   "Symbol:       " ++ pyStrR (pyGet r "symbol"),
   "Side:         " ++ pyStrR (pyGet r "side"),
   "Type:         " ++ pyStrR (pyGet r "type"),
   "Status:       " ++ pyStrR (pyGet r "status"),
   "Quantity:     " ++ pyStrR (pyGet r "quantity"),
   "Executed:     " ++ pyStrR (pyGet r "executed_qty")]

/-- The conditional Price line: appended only when the price value is
truthy and is not the string `'0'`. -/
def summary_price_lines (r : MgrDict) : List String :=
  if pyTruthyR (pyGet r "price") && !(pyGet r "price" == some (.jv (.jstr "0"))) then
    ["Price:        " ++ pyStrR (pyGet r "price")]
  else []

/-- The conditional Avg Price line, same rule on `avg_price`. -/
def summary_avg_price_lines (r : MgrDict) : List String :=
  if pyTruthyR (pyGet r "avg_price") && !(pyGet r "avg_price" == some (.jv (.jstr "0"))) then
    ["Avg Price:    " ++ pyStrR (pyGet r "avg_price")]
  else []

/-- Model of `OrderManager.get_order_summary`. -/
def get_order_summary (order_result : MgrDict) : String :=
  if ¬pyTruthyR (pyGet order_result "success") then
    "Order Failed: " ++ pyStrR (pyGet order_result "error")
  else
    String.intercalate "\n"
      (summary_base_lines order_result ++ summary_price_lines order_result
        ++ summary_avg_price_lines order_result ++ [bar50])

/-! ## Helper lemmas -/

/-- Assigning a fresh key to a dict appends it. -/
theorem dictSet_not_mem (d : List (String × String)) (k v : String)
    (h : k ∉ dictKeys d) : dictSet d k v = d ++ [(k, v)] := by
  have hany : (d.any fun kv => kv.1 == k) = false := by
    rw [List.any_eq_false]
    intro kv hkv
    simp only [beq_iff_eq]
    intro he
    exact h (he ▸ List.mem_map_of_mem Prod.fst hkv)
  simp [dictSet, hany]

/-- The SHA-256 digest is 32 bytes long. -/
theorem sha256_length (msg : List Nat) : (sha256 msg).length = 32 := by
  simp [sha256, toBE32]

/-- The HMAC-SHA256 digest is 32 bytes long. -/
theorem hmacSha256_length (key msg : List Nat) : (hmacSha256 key msg).length = 32 := by
  unfold hmacSha256
  exact sha256_length _

/-- Every nibble renders to a character of the lowercase hex alphabet. -/
theorem hexChar_mem (n : Nat) : hexTable.contains (hexChar n) = true := by
  unfold hexChar
  have h : n % 16 < 16 := Nat.mod_lt _ (by norm_num)
  revert h
  generalize n % 16 = m
  intro h
  interval_cases m <;> decide

/-- The hex digest of a byte list has two characters per byte. -/
theorem hexDigest_length (bs : List Nat) : (hexDigest bs).length = 2 * bs.length := by
  have key : ∀ l : List Nat,
      ((l.map fun b => [hexChar (b / 16), hexChar (b % 16)]).flatten).length = 2 * l.length := by
    intro l
    induction l with
    | nil => simp
    | cons b t ih => simp [ih]; omega
  rw [hexDigest]
  show ((bs.map fun b => [hexChar (b / 16), hexChar (b % 16)]).flatten).length = 2 * bs.length
  exact key bs

/-- Every character of a hex digest is a lowercase hex digit. -/
theorem hexDigest_all_hex (bs : List Nat) :
    (hexDigest bs).toList.all (fun c => hexTable.contains c) = true := by
  rw [List.all_eq_true]
  intro c hc
  have hc' : c ∈ (bs.map fun b => [hexChar (b / 16), hexChar (b % 16)]).flatten := hc
  rw [List.mem_flatten] at hc'
  obtain ⟨l, hl, hcl⟩ := hc'
  rw [List.mem_map] at hl
  obtain ⟨b, _, rfl⟩ := hl
  simp only [List.mem_cons, List.mem_singleton, List.not_mem_nil, or_false] at hcl
  rcases hcl with rfl | rfl <;> exact hexChar_mem _

/-! ## Claims -/

/-- C1: for every signed request, the parameter map is extended first
with `timestamp` (the current epoch milliseconds, here the external
input `ts`) and then with `signature`, the signature of the parameters
so far: the signature covers every parameter including the timestamp
and excludes the signature field itself. -/
theorem signed_request_signature_coverage (api_secret : String) (ts : Nat)
    (params : List (String × String))
    (hts : "timestamp" ∉ dictKeys params) (hsig : "signature" ∉ dictKeys params) :
    makeSignedParams api_secret ts params =
      params ++ [("timestamp", toString ts)]
        ++ [("signature",
             generate_signature api_secret (params ++ [("timestamp", toString ts)]))] := by
  have h1 := dictSet_not_mem params "timestamp" (toString ts) hts
  have h2 : "signature" ∉ dictKeys (params ++ [("timestamp", toString ts)]) := by
    simp only [dictKeys, List.map_append, List.mem_append, List.map_cons, List.map_nil,
      List.mem_singleton, not_or]
    exact ⟨fun hc => hsig hc, by decide⟩
  rw [makeSignedParams, h1, dictSet_not_mem _ _ _ h2]

/-- Witness for C1 at a concrete parameter map, timestamp and secret. -/
theorem signed_request_signature_coverage_witness :
    makeSignedParams "k" 1 [("symbol", "BTCUSDT")] =
      [("symbol", "BTCUSDT")] ++ [("timestamp", "1")]
        ++ [("signature",
             generate_signature "k" ([("symbol", "BTCUSDT")] ++ [("timestamp", "1")]))] :=
  signed_request_signature_coverage "k" 1 [("symbol", "BTCUSDT")] (by decide) (by decide)

/-- C2: for every parameter map (the empty one included) and every
secret, the signer is total and deterministic, its output is the
HMAC-SHA256 of the insertion-ordered query-string encoding of the map,
and that output is a string of 64 lowercase hexadecimal characters.
Totality and determinism are intrinsic: `generate_signature` is a
Lean function defined on all maps and secrets. -/
theorem generate_signature_deterministic_hex (params : List (String × String)) (secret : String) :
    generate_signature secret params
        = hexDigest (hmacSha256 (strBytes secret) (strBytes (urlencode params)))
      ∧ (generate_signature secret params).length = 64
      ∧ (generate_signature secret params).toList.all (fun c => hexTable.contains c) = true := by
  refine ⟨rfl, ?_, hexDigest_all_hex _⟩
  rw [generate_signature, hexDigest_length, hmacSha256_length]

/-- C3: `BinanceClient.place_order` fails with a `ValueError`-class
error exactly when the order type is LIMIT and no price is given;
otherwise its parameter map holds, in this insertion order, symbol,
side, type, quantity, then price and timeInForce exactly when the type
is LIMIT, then reduceOnly (serialized as the string `'true'`) exactly
when `reduce_only` is true. -/
theorem client_place_order_param_map (symbol side order_type : String) (q : PyDecimal)
    (price : Option PyDecimal) (tif : Option String) (ro : Bool) :
    ((∃ m, client_place_order symbol side order_type q price tif ro = .error m)
        ↔ (order_type = "LIMIT" ∧ price = none))
      ∧ ∀ l, client_place_order symbol side order_type q price tif ro = .ok l →
          dictKeys l = ["symbol", "side", "type", "quantity"]
              ++ (if order_type = "LIMIT" then ["price", "timeInForce"] else [])
              ++ (if ro then ["reduceOnly"] else [])
            ∧ l.lookup "symbol" = some (.str symbol)
            ∧ l.lookup "side" = some (.str side)
            ∧ l.lookup "type" = some (.str order_type)
            ∧ l.lookup "quantity" = some (.num q)
            ∧ l.lookup "reduceOnly" = (if ro then some (PVal.str "true") else none) := by
  by_cases hot : order_type = "LIMIT"
  · subst hot
    cases price with
    | none =>
        constructor
        · simp [client_place_order]
        · intro l hl
          simp [client_place_order] at hl
    | some p =>
        constructor
        · simp [client_place_order]
        · intro l hl
          cases ro <;>
            · simp only [client_place_order, if_true, if_pos rfl, if_neg, Bool.false_eq_true,
                if_false, Except.ok.injEq, reduceIte] at hl
              subst hl
              simp [dictKeys, List.lookup]
  · constructor
    · simp [client_place_order, hot]
    · intro l hl
      cases ro <;>
        · simp only [client_place_order, if_neg hot, Bool.false_eq_true, if_false, if_true,
            Except.ok.injEq, reduceIte] at hl
          subst hl
          simp [dictKeys, List.lookup, hot]

/-- Witness for C3: a LIMIT sell with a price, default time in force
and `reduce_only` left false. -/
theorem client_place_order_param_map_witness :
    dictKeys [("symbol", PVal.str "BTCUSDT"), ("side", PVal.str "SELL"),
        ("type", PVal.str "LIMIT"), ("quantity", PVal.num (.fin 1)),
        ("price", PVal.num (.fin 42000)), ("timeInForce", PVal.str "GTC")] =
        ["symbol", "side", "type", "quantity"]
          ++ (if ("LIMIT" : String) = "LIMIT" then ["price", "timeInForce"] else [])
          ++ (if false then ["reduceOnly"] else [])
      ∧ List.lookup "symbol" [("symbol", PVal.str "BTCUSDT"), ("side", PVal.str "SELL"),
          ("type", PVal.str "LIMIT"), ("quantity", PVal.num (.fin 1)),
          ("price", PVal.num (.fin 42000)), ("timeInForce", PVal.str "GTC")]
          = some (.str "BTCUSDT")
      ∧ List.lookup "side" [("symbol", PVal.str "BTCUSDT"), ("side", PVal.str "SELL"),
          ("type", PVal.str "LIMIT"), ("quantity", PVal.num (.fin 1)),
          ("price", PVal.num (.fin 42000)), ("timeInForce", PVal.str "GTC")]
          = some (.str "SELL")
      ∧ List.lookup "type" [("symbol", PVal.str "BTCUSDT"), ("side", PVal.str "SELL"),
          ("type", PVal.str "LIMIT"), ("quantity", PVal.num (.fin 1)),
          ("price", PVal.num (.fin 42000)), ("timeInForce", PVal.str "GTC")]
          = some (.str "LIMIT")
      ∧ List.lookup "quantity" [("symbol", PVal.str "BTCUSDT"), ("side", PVal.str "SELL"),
          ("type", PVal.str "LIMIT"), ("quantity", PVal.num (.fin 1)),
          ("price", PVal.num (.fin 42000)), ("timeInForce", PVal.str "GTC")]
          = some (.num (.fin 1))
      ∧ List.lookup "reduceOnly" [("symbol", PVal.str "BTCUSDT"), ("side", PVal.str "SELL"),
          ("type", PVal.str "LIMIT"), ("quantity", PVal.num (.fin 1)),
          ("price", PVal.num (.fin 42000)), ("timeInForce", PVal.str "GTC")]
          = (if false then some (PVal.str "true") else none) :=
  (client_place_order_param_map "BTCUSDT" "SELL" "LIMIT" (.fin 1) (some (.fin 42000))
      none false).2 _ rfl

/-- C4: whenever validation raises a `ValidationError`,
`OrderManager.place_order` returns a `success:false` record carrying
the validator's message and the error type `VALIDATION_ERROR`, and no
transport-client call is issued (the recorded call list is empty). -/
theorem manager_place_order_validation_failure
    (symbol side order_type quantity price : Option String)
    (net : List (String × PVal) → ClientCall JsonObj) (m : String)
    (h : validate_order_params symbol side order_type quantity price = .verr m) :
    manager_place_order symbol side order_type quantity price net =
      ⟨.ret [("success", .jv (.jbool false)), ("error", .jv (.jstr m)),
             ("error_type", .jv (.jstr "VALIDATION_ERROR"))], []⟩ := by
  unfold manager_place_order
  rw [h]

/-- Witness for C4: the spec scenario
`place_order("BTCUSDT","SELL","LIMIT",0.001, price=None)`. -/
theorem manager_place_order_validation_failure_witness :
    manager_place_order (some "BTCUSDT") (some "SELL") (some "LIMIT") (some "0.001") none
        (fun _ => .exc "no network") =
      ⟨.ret [("success", .jv (.jbool false)),
             ("error", .jv (.jstr "Price is required for LIMIT orders")),
             ("error_type", .jv (.jstr "VALIDATION_ERROR"))], []⟩ :=
  manager_place_order_validation_failure (some "BTCUSDT") (some "SELL") (some "LIMIT")
    (some "0.001") none (fun _ => .exc "no network")
    "Price is required for LIMIT orders" (by decide)

/-- C5 (failing input): on the input `"nan"` — `str(float('nan'))` —
`Decimal` parsing succeeds with a NaN, and the comparison `qty <= 0`
then raises `decimal.InvalidOperation` outside the `try` block, so
`validate_quantity` neither returns a float nor raises
`ValidationError`; the exception even escapes
`OrderManager.place_order`, whose validation step catches only
`ValidationError`. -/
theorem validate_quantity_nan_uncaught :
    validate_quantity (some "nan") = .invalidOp
      ∧ (manager_place_order (some "BTCUSDT") (some "BUY") (some "MARKET") (some "nan") none
          (fun _ => .exc "unused")).result = .raise "decimal.InvalidOperation" := by
  exact ⟨by decide, by decide⟩

/-- A successful `validate_price` for a LIMIT order always yields a
concrete price. -/
theorem validate_price_limit_shape (price : Option String) (p : Option PyDecimal)
    (h : validate_price price "LIMIT" = .ok p) : ∃ x, p = some x := by
  unfold validate_price at h
  rw [if_pos rfl] at h
  repeat' split at h
  all_goals
    first
      | exact PriceOutcome.noConfusion h
      | (injection h with h2; exact ⟨_, h2.symm⟩)

/-- A record produced by `validate_order_params` carries a price
whenever its order type is LIMIT. -/
theorem vok_limit_price (a b c d e : Option String) (v : ValidatedOrder)
    (h : validate_order_params a b c d e = .vok v) :
    v.order_type = "LIMIT" → ∃ x, v.price = some x := by
  intro hot
  obtain ⟨vs, vd, vo, vq, vp⟩ := v
  cases hsym : validate_symbol a with
  | error m => simp [validate_order_params, hsym] at h
  | ok sym =>
  cases hsd : validate_side b with
  | error m => simp [validate_order_params, hsym, hsd] at h
  | ok sd =>
  cases hord : validate_order_type c with
  | error m => simp [validate_order_params, hsym, hsd, hord] at h
  | ok ot =>
  cases hq : validate_quantity d with
  | verror m => simp [validate_order_params, hsym, hsd, hord, hq] at h
  | invalidOp => simp [validate_order_params, hsym, hsd, hord, hq] at h
  | ok q =>
  cases hp : validate_price e ot with
  | verror m => simp [validate_order_params, hsym, hsd, hord, hq, hp] at h
  | invalidOp => simp [validate_order_params, hsym, hsd, hord, hq, hp] at h
  | ok p =>
      simp only [validate_order_params, hsym, hsd, hord, hq, hp, VOutcome.vok.injEq,
        ValidatedOrder.mk.injEq] at h
      obtain ⟨h1, h2, h3, h4, h5⟩ := h
      have hvo : ot = "LIMIT" := h3.trans hot
      rw [hvo] at hp
      show ∃ x, vp = some x
      rw [← h5]
      exact validate_price_limit_shape e p hp

/-- C6: whenever the transport client raises an `ApiError` during
order placement, `OrderManager.place_order` returns a `success:false`
record with type `API_ERROR`, the error's code and the error's
message; in particular an HTTP 400 carrying
`code:-1111, msg:"Precision is over the maximum"` surfaces exactly
that code and message. -/
theorem manager_place_order_api_error
    (symbol side order_type quantity price : Option String) (v : ValidatedOrder)
    (e : BinanceAPIError)
    (hval : validate_order_params symbol side order_type quantity price = .vok v) :
    (manager_place_order symbol side order_type quantity price (fun _ => .apiErr e)).result =
        .ret [("success", .jv (.jbool false)), ("error", .jv e.message),
              ("error_code", .jv e.error_code), ("error_type", .jv (.jstr "API_ERROR"))]
      ∧ (manager_place_order (some "BTCUSDT") (some "BUY") (some "MARKET") (some "0.001") none
            (fun _ => clientCallOfHttp (.response 400
              (some [("code", .jnum (-1111)), ("msg", .jstr "Precision is over the maximum")])))).result =
          .ret [("success", .jv (.jbool false)),
                ("error", .jv (.jstr "Precision is over the maximum")),
                ("error_code", .jv (.jnum (-1111))),
                ("error_type", .jv (.jstr "API_ERROR"))] := by
  constructor
  · by_cases hot : v.order_type = "LIMIT"
    · obtain ⟨x, hx⟩ := vok_limit_price _ _ _ _ _ v hval hot
      simp [manager_place_order, hval, client_place_order, hx, hot]
    · simp [manager_place_order, hval, client_place_order, hot]
  · decide

/-- Witness for C6 at the concrete order
`BTCUSDT BUY MARKET 0.001` and the error record of the scenario. -/
theorem manager_place_order_api_error_witness :
    (manager_place_order (some "BTCUSDT") (some "BUY") (some "MARKET") (some "0.001") none
        (fun _ => .apiErr ⟨400, .jnum (-1111), .jstr "Precision is over the maximum"⟩)).result =
        .ret [("success", .jv (.jbool false)),
              ("error", .jv (.jstr "Precision is over the maximum")),
              ("error_code", .jv (.jnum (-1111))),
              ("error_type", .jv (.jstr "API_ERROR"))]
      ∧ (manager_place_order (some "BTCUSDT") (some "BUY") (some "MARKET") (some "0.001") none
            (fun _ => clientCallOfHttp (.response 400
              (some [("code", .jnum (-1111)), ("msg", .jstr "Precision is over the maximum")])))).result =
          .ret [("success", .jv (.jbool false)),
                ("error", .jv (.jstr "Precision is over the maximum")),
                ("error_code", .jv (.jnum (-1111))),
                ("error_type", .jv (.jstr "API_ERROR"))] :=
  manager_place_order_api_error (some "BTCUSDT") (some "BUY") (some "MARKET") (some "0.001") none
    ⟨"BTCUSDT", "BUY", "MARKET", .fin (mkRat 1 1000), none⟩
    ⟨400, .jnum (-1111), .jstr "Precision is over the maximum"⟩ (by decide)

/-- C7: the transport classification of network-level failures: a
connection timeout maps to code `TIMEOUT`, a connection error to
`CONNECTION_ERROR`, any other transport failure to `REQUEST_ERROR`,
each with `status_code = 0`; and a timed-out order placement surfaces
through the Order Manager as an `API_ERROR` result with code
`TIMEOUT`. -/
theorem transport_failure_classification (m : String) :
    make_request .timeout = .error ⟨0, .jstr "TIMEOUT", .jstr "Request timed out"⟩
      ∧ make_request (.connectionError m) = .error ⟨0, .jstr "CONNECTION_ERROR", .jstr m⟩
      ∧ make_request (.requestError m) = .error ⟨0, .jstr "REQUEST_ERROR", .jstr m⟩
      ∧ (manager_place_order (some "BTCUSDT") (some "BUY") (some "MARKET") (some "0.001") none
            (fun _ => clientCallOfHttp .timeout)).result =
          .ret [("success", .jv (.jbool false)), ("error", .jv (.jstr "Request timed out")),
                ("error_code", .jv (.jstr "TIMEOUT")),
                ("error_type", .jv (.jstr "API_ERROR"))] :=
  ⟨rfl, rfl, rfl, by decide⟩

/-- True when a Python call outcome is an escaping exception. -/
def resultEscapes {ρ : Type} : PyResult ρ → Bool
  | .ret _ => false
  | .raise _ => true

/-- True when `validate_order_params` let a non-`ValidationError`
exception through. -/
def vexcFlag : VOutcome → Bool
  | .vexc _ => true
  | _ => false

/-- True when a manager result dict is either a success record or a
failure record carrying one of the three documented error types. -/
def allowedFailureRecord (r : MgrDict) : Bool :=
  (r.lookup "success" == some (.jv (.jbool true)))
    || (r.lookup "error_type" == some (.jv (.jstr "VALIDATION_ERROR")))
    || (r.lookup "error_type" == some (.jv (.jstr "API_ERROR")))
    || (r.lookup "error_type" == some (.jv (.jstr "UNKNOWN_ERROR")))

/-- True when a `place_order` outcome is either an escaping exception
or a returned record of the documented shape. -/
def placeOrderResultOk (p : PyResult MgrDict) : Bool :=
  match p with
  | .raise _ => true
  | .ret r => allowedFailureRecord r

/-- C8 counterexample: on a `BinanceAPIError` from the client,
`OrderManager.cancel_order` returns `{success: false, error}` with no
`error_type` key at all, so not every exception is converted into a
uniform `{success, error, error_type}` record. -/
theorem manager_cancel_order_missing_error_type :
    manager_cancel_order (.apiErr ⟨400, .jnum (-2011), .jstr "Unknown order sent."⟩)
        = .ret [("success", .jv (.jbool false)), ("error", .jv (.jstr "Unknown order sent."))]
      ∧ "error_type" ∉ dictKeys [("success", RVal.jv (.jbool false)),
          ("error", RVal.jv (.jstr "Unknown order sent."))] :=
  ⟨rfl, by decide⟩

/-- C8 (amended): `place_order` converts `ValidationError`,
`BinanceAPIError` and any other exception of the client call into
records whose `error_type` is one of `VALIDATION_ERROR`, `API_ERROR`,
`UNKNOWN_ERROR` — the only exception that escapes it is a
non-`ValidationError` raised during validation; `cancel_order` and
`get_open_orders` catch only `BinanceAPIError`, return
`{success: false, error}` without an `error_type`, and let every
other exception class escape. -/
theorem manager_exception_policy (e : BinanceAPIError) (m : String)
    (symbol side order_type quantity price : Option String)
    (net : List (String × PVal) → ClientCall JsonObj) :
    manager_cancel_order (.apiErr e)
        = .ret [("success", .jv (.jbool false)), ("error", .jv e.message)]
      ∧ manager_cancel_order (.exc m) = .raise m
      ∧ manager_get_open_orders (.apiErr e)
        = .ret [("success", .jv (.jbool false)), ("error", .jv e.message)]
      ∧ manager_get_open_orders (.exc m) = .raise m
      ∧ resultEscapes (manager_place_order symbol side order_type quantity price net).result
          = vexcFlag (validate_order_params symbol side order_type quantity price)
      ∧ placeOrderResultOk (manager_place_order symbol side order_type quantity price net).result
          = true := by
  refine ⟨rfl, rfl, rfl, rfl, ?_, ?_⟩ <;>
  · cases hv : validate_order_params symbol side order_type quantity price with
    | verr m2 =>
        simp [manager_place_order, hv, resultEscapes, vexcFlag, placeOrderResultOk,
          allowedFailureRecord, List.lookup]
    | vexc m2 => simp [manager_place_order, hv, resultEscapes, vexcFlag, placeOrderResultOk]
    | vok v =>
        cases hcp : client_place_order v.symbol v.side v.order_type v.quantity v.price
            none false with
        | error m2 =>
            simp [manager_place_order, hv, hcp, resultEscapes, vexcFlag, placeOrderResultOk,
              allowedFailureRecord, List.lookup]
        | ok params =>
            cases hn : net params with
            | ok response =>
                simp [manager_place_order, hv, hcp, hn, resultEscapes, vexcFlag,
                  placeOrderResultOk, allowedFailureRecord, format_order_response, List.lookup]
            | apiErr e2 =>
                simp [manager_place_order, hv, hcp, hn, resultEscapes, vexcFlag,
                  placeOrderResultOk, allowedFailureRecord, List.lookup]
            | exc m2 =>
                simp [manager_place_order, hv, hcp, hn, resultEscapes, vexcFlag,
                  placeOrderResultOk, allowedFailureRecord, List.lookup]

/-- C9: `get_order_summary` omits the Price line entirely when the
price field is the string `"0"`, and likewise the Avg Price line when
the average price is the string `"0"`. -/
theorem get_order_summary_zero_price (r : MgrDict) :
    (pyGet r "price" = some (.jv (.jstr "0")) → summary_price_lines r = [])
      ∧ (pyGet r "avg_price" = some (.jv (.jstr "0")) → summary_avg_price_lines r = [])
      ∧ (pyTruthyR (pyGet r "success") = true → pyGet r "price" = some (.jv (.jstr "0")) →
          get_order_summary r = String.intercalate (String.mk ['\n'])
            (summary_base_lines r ++ summary_avg_price_lines r ++ [bar50])) := by
  have h1 : pyGet r "price" = some (.jv (.jstr "0")) → summary_price_lines r = [] := by
    intro h
    simp [summary_price_lines, h]
  refine ⟨h1, ?_, ?_⟩
  · intro h
    simp [summary_avg_price_lines, h]
  · intro hs hp
    simp [get_order_summary, hs, h1 hp]

/-- Witness for C9: a market-order result whose API response carried
`price:"0"`. -/
theorem get_order_summary_zero_price_witness :
    summary_price_lines [("success", RVal.jv (.jbool true)), ("order_id", RVal.jv (.jnum 123)),
        ("price", RVal.jv (.jstr "0")), ("avg_price", RVal.jv (.jstr "42000.5"))] = []
      ∧ get_order_summary [("success", RVal.jv (.jbool true)), ("order_id", RVal.jv (.jnum 123)),
          ("price", RVal.jv (.jstr "0")), ("avg_price", RVal.jv (.jstr "42000.5"))]
        = String.intercalate (String.mk ['\n'])
            (summary_base_lines [("success", RVal.jv (.jbool true)),
                ("order_id", RVal.jv (.jnum 123)), ("price", RVal.jv (.jstr "0")),
                ("avg_price", RVal.jv (.jstr "42000.5"))]
              ++ summary_avg_price_lines [("success", RVal.jv (.jbool true)),
                  ("order_id", RVal.jv (.jnum 123)), ("price", RVal.jv (.jstr "0")),
                  ("avg_price", RVal.jv (.jstr "42000.5"))]
              ++ [bar50]) :=
  ⟨(get_order_summary_zero_price _).1 (by decide),
   (get_order_summary_zero_price _).2.2 (by decide) (by decide)⟩

/-- C10: `OrderManager.place_order` forwards neither `reduce_only` nor
`time_in_force` to the transport client, so no parameter map it sends
ever contains `reduceOnly`, and whenever the map is for a LIMIT order
its `timeInForce` is `GTC`. -/
theorem manager_never_sends_reduce_only
    (symbol side order_type quantity price : Option String)
    (net : List (String × PVal) → ClientCall JsonObj)
    (p : List (String × PVal))
    (hp : p ∈ (manager_place_order symbol side order_type quantity price net).calls) :
    p.lookup "reduceOnly" = none
      ∧ (p.lookup "timeInForce" = none ∨ p.lookup "timeInForce" = some (.str "GTC"))
      ∧ (p.lookup "type" = some (.str "LIMIT") →
          p.lookup "timeInForce" = some (.str "GTC")) := by
  cases hv : validate_order_params symbol side order_type quantity price with
  | verr m => simp [manager_place_order, hv] at hp
  | vexc m => simp [manager_place_order, hv] at hp
  | vok v =>
      cases hcp : client_place_order v.symbol v.side v.order_type v.quantity v.price
          none false with
      | error m => simp [manager_place_order, hv, hcp] at hp
      | ok params =>
          have hpp : p = params := by
            cases hn : net params <;> simp [manager_place_order, hv, hcp, hn] at hp <;> exact hp
          subst hpp
          by_cases hot : v.order_type = "LIMIT"
          · obtain ⟨x, hx⟩ := vok_limit_price _ _ _ _ _ v hv hot
            simp only [client_place_order, hx, hot, if_pos, if_true, Bool.false_eq_true,
              if_false, reduceIte, Except.ok.injEq, List.append_nil] at hcp
            subst hcp
            simp [List.lookup, pyOrDefault]
          · simp only [client_place_order, hot, Bool.false_eq_true, if_false, reduceIte,
              Except.ok.injEq, List.append_nil] at hcp
            subst hcp
            refine ⟨by simp [List.lookup], Or.inl (by simp [List.lookup]), ?_⟩
            intro hty
            simp [List.lookup] at hty
            exact absurd hty hot

/-- Witness for C10: a concrete LIMIT order run through the manager. -/
theorem manager_never_sends_reduce_only_witness :
    List.lookup "reduceOnly" [("symbol", PVal.str "BTCUSDT"), ("side", PVal.str "BUY"),
        ("type", PVal.str "LIMIT"), ("quantity", PVal.num (.fin 1)),
        ("price", PVal.num (.fin 42000)), ("timeInForce", PVal.str "GTC")] = none
      ∧ (List.lookup "timeInForce" [("symbol", PVal.str "BTCUSDT"), ("side", PVal.str "BUY"),
            ("type", PVal.str "LIMIT"), ("quantity", PVal.num (.fin 1)),
            ("price", PVal.num (.fin 42000)), ("timeInForce", PVal.str "GTC")] = none
          ∨ List.lookup "timeInForce" [("symbol", PVal.str "BTCUSDT"), ("side", PVal.str "BUY"),
              ("type", PVal.str "LIMIT"), ("quantity", PVal.num (.fin 1)),
              ("price", PVal.num (.fin 42000)), ("timeInForce", PVal.str "GTC")]
            = some (.str "GTC"))
      ∧ (List.lookup "type" [("symbol", PVal.str "BTCUSDT"), ("side", PVal.str "BUY"),
            ("type", PVal.str "LIMIT"), ("quantity", PVal.num (.fin 1)),
            ("price", PVal.num (.fin 42000)), ("timeInForce", PVal.str "GTC")]
            = some (.str "LIMIT") →
          List.lookup "timeInForce" [("symbol", PVal.str "BTCUSDT"), ("side", PVal.str "BUY"),
              ("type", PVal.str "LIMIT"), ("quantity", PVal.num (.fin 1)),
              ("price", PVal.num (.fin 42000)), ("timeInForce", PVal.str "GTC")]
            = some (.str "GTC")) :=
  manager_never_sends_reduce_only (some "BTCUSDT") (some "BUY") (some "LIMIT") (some "1")
    (some "42000") (fun _ => .exc "unused") _ (by decide)

end Primetrade
